import Mathlib

set_option maxRecDepth 40000

/-!
Verification of `spyder/plugins/projects/widgets/configdialog.py`.

The module under verification is a project-creation dialog.  Its verifiable
core consists of:
  * `is_writable`           : a write-access probe on a directory,
  * `_validate_location`    : sequential validation checks producing a record
                              of boolean reasons,
  * `_compose_failed_validation_text` : rendering of the reasons into a
                              user-facing message, and
  * `ExistingDirectoryPage.validate_page` : the pass/fail gate of the dialog.

The filesystem is modelled explicitly (directories, files, and per-directory
write permission); filesystem-affecting operations return
`Except OSErr (α × FS)` so that the exceptions `open` and `os.remove` may
raise (`FileNotFoundError`, `PermissionError`, `IsADirectoryError`) are
visible, mirroring the `try/except` in the Python source.  Path helpers
(`osp_join`, `osp_normpath`, `osp_dirname`) are translated from CPython's
`posixpath` module, which the source imports as `osp`.
-/

namespace SpyderConfigDialog

/-- Translation of `posixpath.join` for two arguments, as used by
`osp.join(path, name)` in the source.  (`b.data.head? = some c` is
`b.startswith(c)`; `a.data.getLast? = some c` is `a.endswith(c)`.) -/
def osp_join (a b : String) : String :=
  if b.data.head? = some '/' then b
  else if a = "" || a.data.getLast? = some '/' then String.mk (a.data ++ b.data)
  else String.mk (a.data ++ '/' :: b.data)

/-- Translation of `posixpath.dirname`: everything up to the final slash,
with trailing slashes stripped unless the head is all slashes. -/
def osp_dirname (p : String) : String :=
  let cs := p.data
  let head := (cs.reverse.dropWhile (fun c => c ≠ '/')).reverse
  let head :=
    if head ≠ [] ∧ head.any (fun c => c ≠ '/') then
      (head.reverse.dropWhile (fun c => c = '/')).reverse
    else head
  String.mk head

/-- Splitting a character list at every `'/'`, as Python's
`path.split('/')` does (always at least one, possibly empty, component). -/
def splitSlash : List Char → List (List Char)
  | [] => [[]]
  | c :: rest =>
    let r := splitSlash rest
    if c = '/' then [] :: r
    else
      match r with
      | [] => [[c]]
      | h :: t => (c :: h) :: t

/-- Translation of `posixpath.normpath`: collapse separators, drop `.`
components, resolve `..` components, preserving one or two leading
slashes; the empty path normalizes to `.`. -/
def osp_normpath (path : String) : String :=
  if path = "" then "."
  else
    let slashes : Nat :=
      match path.data with
      | '/' :: '/' :: '/' :: _ => 1
      | '/' :: '/' :: _ => 2
      | '/' :: _ => 1
      | _ => 0
    let comps := splitSlash path.data
    let newComps := comps.foldl
      (fun acc comp =>
        if comp = [] || comp = ['.'] then acc
        else if comp ≠ ['.', '.'] ∨ (slashes = 0 ∧ acc = []) ∨
            (acc ≠ [] ∧ acc.getLast? = some ['.', '.']) then
          acc ++ [comp]
        else if acc ≠ [] then acc.dropLast
        else acc)
      []
    let joined := List.intercalate ['/'] newComps
    let out := List.replicate slashes '/' ++ joined
    if out = [] then "." else String.mk out

/-- The errors relevant to the probe: the two exception types caught by
`is_writable`, and `IsADirectoryError`, which `open(..., 'w')` and
`os.remove` raise on a directory and which `is_writable` does not catch. -/
inductive OSErr where
  | fileNotFound
  | permission
  | isADirectory
  deriving DecidableEq, Repr

/-- The filesystem model: the set of existing directories, the set of
existing regular files (both keyed by path string), and the set of
directories in which the caller may create files. -/
structure FS where
  dirs : List String
  files : List String
  writableDirs : List String
  deriving DecidableEq, Repr

/-- Translation of `osp.isdir`. -/
def osp_isdir (fs : FS) (p : String) : Bool :=
  fs.dirs.contains p

/-- Model of `open(p, 'w')` followed by `close()`: raises
`IsADirectoryError` if `p` is a directory, `FileNotFoundError` if the parent
directory does not exist, `PermissionError` if the parent directory is not
writable; otherwise creates (or truncates) the file `p`. -/
def FS.openW (fs : FS) (p : String) : Except OSErr FS :=
  if fs.dirs.contains p then .error .isADirectory
  else if !fs.dirs.contains (osp_dirname p) then .error .fileNotFound
  else if !fs.writableDirs.contains (osp_dirname p) then .error .permission
  else if fs.files.contains p then .ok fs
  else .ok { fs with files := p :: fs.files }

/-- Model of `os.remove(p)`: raises `IsADirectoryError` if `p` is a
directory, `FileNotFoundError` if the file does not exist; otherwise
removes the file `p`. -/
def FS.osRemove (fs : FS) (p : String) : Except OSErr FS :=
  if fs.dirs.contains p then .error .isADirectory
  else if !fs.files.contains p then .error .fileNotFound
  else .ok { fs with files := fs.files.erase p }

/-- The sentinel file name used by the write probe. -/
def writeTestName : String := "__spyder_write_test__.txt"

/-- Translation of `is_writable(path)`: joins the sentinel name onto the
path, attempts to create and then delete that file, catching
`FileNotFoundError` and `PermissionError` (returning `false`); any other
error propagates.  The returned `FS` is the filesystem after the attempt. -/
def is_writable (fs : FS) (path : String) : Except OSErr (Bool × FS) :=
  let filepath := osp_join path writeTestName
  match fs.openW filepath with
  | .error .fileNotFound => .ok (false, fs)
  | .error .permission => .ok (false, fs)
  | .error e => .error e
  | .ok fs1 =>
    match fs1.osRemove filepath with
    | .error .fileNotFound => .ok (false, fs1)
    | .error .permission => .ok (false, fs1)
    | .error e => .error e
    | .ok fs2 => .ok (true, fs2)

/-- Translation of the `ValidationReasons` TypedDict.  In the source the
dict starts empty and keys are only ever assigned `True`, so presence of a
key is equivalent to a `true` field here; the default `false` stands for an
absent key (`reasons.get(k)` is falsy in both cases). -/
structure ValidationReasons where
  missing_info : Bool := false
  no_location : Bool := false
  location_exists : Bool := false
  location_not_writable : Bool := false
  spyder_project_exists : Bool := false
  deriving DecidableEq, Repr

/-- `list(reasons.values()).count(True)` from
`_compose_failed_validation_text`. -/
def ValidationReasons.n_reasons (r : ValidationReasons) : Nat :=
  [r.missing_info, r.no_location, r.location_exists, r.location_not_writable,
    r.spyder_project_exists].count true

/-- Truthiness of the `reasons` dict (`return False if reasons else True`):
since keys are only ever assigned `True`, the dict is nonempty iff some
flag is `true`. -/
def ValidationReasons.nonempty (r : ValidationReasons) : Bool :=
  r.missing_info || r.no_location || r.location_exists ||
    r.location_not_writable || r.spyder_project_exists

/-- The display state the validation code touches: the text of the location
line edit, the location widget's status icon (visibility and tooltip) and
the validation label (visibility and text). -/
structure PageState where
  textboxText : String
  statusVisible : Bool
  statusTooltip : String
  labelVisible : Bool
  labelText : String
  deriving DecidableEq, Repr

/-- Tooltip set when the location is empty. -/
def tip_empty : String := "This is empty"

/-- Tooltip set when the location is not an existing directory. -/
def tip_no_location : String := "This directory doesn\x27t exist"

/-- Tooltip set when the location fails the write probe. -/
def tip_not_writable : String := "This directory is not writable"

/-- Tooltip set when the location already contains a `.spyproject` dir. -/
def tip_spyder_project : String := "You selected a Spyder project"

/-- Message for the `location_exists` reason. -/
def msg_location_exists : String :=
  "The directory you selected for this project already exists."

/-- Message for the `spyder_project_exists` reason. -/
def msg_spyder_project_exists : String :=
  "This directory is already a Spyder project."

/-- Message for the `location_not_writable` reason. -/
def msg_not_writable : String :=
  "You don\x27t have write permissions in the location you selected."

/-- Message for the `no_location` reason. -/
def msg_no_location : String :=
  "The location you selected doesn\x27t exist."

/-- Message for the `missing_info` reason. -/
def msg_missing_info : String :=
  "There are missing fields on this page."

/-- Translation of `BaseProjectPage._validate_location`.  In the source
`reasons` and `name` default to `None`; both callers in this module use the
defaults.  The display state (status icon) and the filesystem (changed by
the write probe) are threaded explicitly; an error the probe does not catch
propagates out of the function. -/
def _validate_location (fs : FS) (st : PageState) (location : String)
    (reasons0 : Option ValidationReasons) (name : Option String) :
    Except OSErr (ValidationReasons × PageState × FS) :=
  let reasons := reasons0.getD {}
  if location = "" then
    .ok ({ reasons with missing_info := true },
      { st with statusVisible := true, statusTooltip := tip_empty }, fs)
  else if !osp_isdir fs location then
    .ok ({ reasons with no_location := true },
      { st with statusVisible := true, statusTooltip := tip_no_location }, fs)
  else
    match is_writable fs location with
    | .error e => .error e
    | .ok (w, fs1) =>
      if !w then
        .ok ({ reasons with location_not_writable := true },
          { st with statusVisible := true, statusTooltip := tip_not_writable },
          fs1)
      else
        match name with
        | some n =>
          let project_path := osp_join location n
          if osp_isdir fs1 project_path then
            .ok ({ reasons with location_exists := true }, st, fs1)
          else
            .ok (reasons, st, fs1)
        | none =>
          let spyproject_path := osp_join location ".spyproject"
          if osp_isdir fs1 spyproject_path then
            .ok ({ reasons with spyder_project_exists := true },
              { st with statusVisible := true, statusTooltip := tip_spyder_project },
              fs1)
          else
            .ok (reasons, st, fs1)

/-- Translation of `BaseProjectPage._compose_failed_validation_text`. -/
def _compose_failed_validation_text (reasons : ValidationReasons) : String :=
  let n_reasons := reasons.n_reasons
  let pfx := if n_reasons > 1 then "- " else ""
  let sfx := if n_reasons > 1 then "<br>" else ""
  let text := ""
  let text :=
    if reasons.location_exists then
      text ++ pfx ++ msg_location_exists ++ sfx
    else if reasons.spyder_project_exists then
      text ++ pfx ++ msg_spyder_project_exists ++ sfx
    else if reasons.location_not_writable then
      text ++ pfx ++ msg_not_writable ++ sfx
    else if reasons.no_location then
      text ++ pfx ++ msg_no_location ++ sfx
    else text
  let text :=
    if reasons.missing_info then text ++ pfx ++ msg_missing_info else text
  text

/-- Translation of `ExistingDirectoryPage.validate_page`: clear the
validation label and status icon, validate the normalized location (the
empty string stays empty, avoiding `normpath("") = "."`), and on failure
show the composed failure text.  Returns the pass/fail result with the
updated display state and filesystem. -/
def validate_page (fs : FS) (st : PageState) :
    Except OSErr (Bool × PageState × FS) :=
  let st1 := { st with labelVisible := false, statusVisible := false }
  let location_text := st.textboxText
  let location :=
    if location_text ≠ "" then osp_normpath location_text else ""
  match _validate_location fs st1 location none none with
  | .error e => .error e
  | .ok (reasons, st2, fs1) =>
    if reasons.nonempty then
      .ok (false,
        { st2 with
          labelText := _compose_failed_validation_text reasons,
          labelVisible := true }, fs1)
    else
      .ok (true, st2, fs1)

/-- Translation of the `ExistingDirectoryPage.project_location` property:
`osp.normpath` of the raw textbox text. -/
def project_location (st : PageState) : String :=
  osp_normpath st.textboxText

/-- `pat` occurs as a contiguous substring of `s`. -/
def occursIn (pat s : String) : Prop :=
  pat.data <:+: s.data

instance (pat s : String) : Decidable (occursIn pat s) :=
  List.decidableInfix pat.data s.data

example : osp_normpath "" = "." := by rfl
example : osp_normpath "a//b/./c/.." = "a/b" := by rfl
example : osp_normpath "//a/" = "//a" := by rfl
example : osp_normpath "/../a" = "/a" := by rfl
example : osp_normpath "..//x" = "../x" := by rfl
example : osp_dirname "d/f.txt" = "d" := by rfl
example : osp_dirname "f.txt" = "" := by rfl
example : osp_dirname "/f.txt" = "/" := by rfl
example : osp_join "d" "x" = "d/x" := by rfl
example : osp_join "" "x" = "x" := by rfl
example : osp_join "d/" "x" = "d/x" := by rfl
example :
    is_writable ⟨["d"], [], ["d"]⟩ "d" =
      .ok (true, ⟨["d"], [], ["d"]⟩) := by rfl
example :
    is_writable ⟨["d"], [], []⟩ "d" = .ok (false, ⟨["d"], [], []⟩) := by
  rfl
example :
    is_writable ⟨[], [], []⟩ "d" = .ok (false, ⟨[], [], []⟩) := by rfl

example :
    validate_page ⟨[], [], []⟩ ⟨"", false, "", false, ""⟩ =
      .ok (false, ⟨"", true, tip_empty, true, msg_missing_info⟩,
        ⟨[], [], []⟩) := by rfl

example :
    validate_page ⟨["d"], [], ["d"]⟩ ⟨"d", true, "old", true, "old"⟩ =
      .ok (true, ⟨"d", false, "old", false, "old"⟩, ⟨["d"], [], ["d"]⟩) := by
  rfl

example :
    validate_page ⟨[], [], []⟩ ⟨"nope", false, "", false, ""⟩ =
      .ok (false, ⟨"nope", true, tip_no_location, true, msg_no_location⟩,
        ⟨[], [], []⟩) := by rfl

example :
    validate_page ⟨["d", "d/.spyproject"], [], ["d"]⟩
        ⟨"d", false, "", false, ""⟩ =
      .ok (false,
        ⟨"d", true, tip_spyder_project, true, msg_spyder_project_exists⟩,
        ⟨["d", "d/.spyproject"], [], ["d"]⟩) := by rfl

end SpyderConfigDialog

namespace SpyderConfigDialog

theorem openW_ok_dirs (fs : FS) (p : String) (fs' : FS)
    (h : fs.openW p = .ok fs') :
    fs'.dirs = fs.dirs ∧ fs'.writableDirs = fs.writableDirs := by
  unfold FS.openW at h
  repeat' split at h
  all_goals (cases h; try exact ⟨rfl, rfl⟩)

theorem osRemove_ok_dirs (fs : FS) (p : String) (fs' : FS)
    (h : fs.osRemove p = .ok fs') :
    fs'.dirs = fs.dirs ∧ fs'.writableDirs = fs.writableDirs := by
  unfold FS.osRemove at h
  repeat' split at h
  all_goals (cases h; try exact ⟨rfl, rfl⟩)

/-- The write probe can change only the file set: directories and
writability are untouched. -/
theorem is_writable_ok_dirs (fs : FS) (p : String) (w : Bool) (fs' : FS)
    (h : is_writable fs p = .ok (w, fs')) :
    fs'.dirs = fs.dirs ∧ fs'.writableDirs = fs.writableDirs := by
  unfold is_writable at h
  cases hopen : FS.openW fs (osp_join p writeTestName) with
  | error e =>
    simp only [hopen] at h
    cases e <;> simp_all
  | ok fs1 =>
    simp only [hopen] at h
    cases hrem : FS.osRemove fs1 (osp_join p writeTestName) with
    | error e =>
      simp only [hrem] at h
      have h1 := openW_ok_dirs fs _ fs1 hopen
      cases e <;> simp_all
    | ok fs2 =>
      simp only [hrem] at h
      have h1 := openW_ok_dirs fs _ fs1 hopen
      have h2 := osRemove_ok_dirs fs1 _ fs2 hrem
      simp_all

/-- Complete case analysis of `_validate_location` when called with fresh
(`None`) reasons, as both callers in the module do: exactly one of six
outcomes happens, determined by the sequential checks of the source. -/
theorem validate_location_spec
    (fs : FS) (st : PageState) (location : String) (name : Option String)
    (r : ValidationReasons) (st' : PageState) (fs' : FS)
    (h : _validate_location fs st location none name = .ok (r, st', fs')) :
    (location = "" ∧ r = { missing_info := true } ∧ fs' = fs ∧
      st' = { st with statusVisible := true, statusTooltip := tip_empty }) ∨
    (location ≠ "" ∧ osp_isdir fs location = false ∧
      r = { no_location := true } ∧ fs' = fs ∧
      st' = { st with statusVisible := true, statusTooltip := tip_no_location }) ∨
    (location ≠ "" ∧ osp_isdir fs location = true ∧
      is_writable fs location = .ok (false, fs') ∧
      r = { location_not_writable := true } ∧
      st' = { st with statusVisible := true, statusTooltip := tip_not_writable }) ∨
    (location ≠ "" ∧ osp_isdir fs location = true ∧
      is_writable fs location = .ok (true, fs') ∧
      (∃ n, name = some n ∧ osp_isdir fs (osp_join location n) = true) ∧
      r = { location_exists := true } ∧ st' = st) ∨
    (location ≠ "" ∧ osp_isdir fs location = true ∧
      is_writable fs location = .ok (true, fs') ∧ name = none ∧
      osp_isdir fs (osp_join location ".spyproject") = true ∧
      r = { spyder_project_exists := true } ∧
      st' = { st with statusVisible := true, statusTooltip := tip_spyder_project }) ∨
    (location ≠ "" ∧ osp_isdir fs location = true ∧
      is_writable fs location = .ok (true, fs') ∧
      ((∃ n, name = some n ∧ osp_isdir fs (osp_join location n) = false) ∨
        (name = none ∧ osp_isdir fs (osp_join location ".spyproject") = false)) ∧
      r = {} ∧ st' = st) := by
  unfold _validate_location at h
  by_cases h0 : location = ""
  · rw [if_pos h0] at h
    cases h
    exact Or.inl ⟨h0, rfl, rfl, rfl⟩
  · rw [if_neg h0] at h
    cases h1 : osp_isdir fs location with
    | false =>
      simp only [h1, Bool.not_false, if_true] at h
      cases h
      exact Or.inr (Or.inl ⟨h0, rfl, rfl, rfl, rfl⟩)
    | true =>
      simp only [h1, Bool.not_true, Bool.false_eq_true, if_false] at h
      cases hw : is_writable fs location with
      | error e =>
        rw [hw] at h
        exact Except.noConfusion h
      | ok p =>
        obtain ⟨w, fs1⟩ := p
        rw [hw] at h
        have hdirs : ∀ x, osp_isdir fs1 x = osp_isdir fs x := by
          intro x
          unfold osp_isdir
          rw [(is_writable_ok_dirs fs location w fs1 hw).1]
        cases w with
        | false =>
          simp only [Bool.not_false, if_true] at h
          cases h
          exact Or.inr (Or.inr (Or.inl ⟨h0, rfl, rfl, rfl, rfl⟩))
        | true =>
          simp only [Bool.not_true, Bool.false_eq_true, if_false] at h
          cases name with
          | some n =>
            cases h2 : osp_isdir fs1 (osp_join location n) with
            | true =>
              simp only [h2, if_true] at h
              cases h
              exact Or.inr (Or.inr (Or.inr (Or.inl
                ⟨h0, rfl, rfl, ⟨n, rfl, (hdirs _).symm.trans h2⟩, rfl, rfl⟩)))
            | false =>
              simp only [h2, Bool.false_eq_true, if_false] at h
              cases h
              exact Or.inr (Or.inr (Or.inr (Or.inr (Or.inr
                ⟨h0, rfl, rfl, Or.inl ⟨n, rfl, (hdirs _).symm.trans h2⟩, rfl, rfl⟩))))
          | none =>
            cases h2 : osp_isdir fs1 (osp_join location ".spyproject") with
            | true =>
              simp only [h2, if_true] at h
              cases h
              exact Or.inr (Or.inr (Or.inr (Or.inr (Or.inl
                ⟨h0, rfl, rfl, rfl, (hdirs _).symm.trans h2, rfl, rfl⟩))))
            | false =>
              simp only [h2, Bool.false_eq_true, if_false] at h
              cases h
              exact Or.inr (Or.inr (Or.inr (Or.inr (Or.inr
                ⟨h0, rfl, rfl, Or.inr ⟨rfl, (hdirs _).symm.trans h2⟩, rfl, rfl⟩))))

end SpyderConfigDialog

namespace SpyderConfigDialog

/-- Decomposition of `validate_page`: the result is obtained by clearing
the label and status icon, validating the normalized location (empty text
stays empty) with fresh reasons and no name, and showing the composed
failure text iff a reason was recorded. -/
theorem validate_page_spec (fs : FS) (st : PageState) (b : Bool)
    (st' : PageState) (fs' : FS)
    (h : validate_page fs st = .ok (b, st', fs')) :
    ∃ r stm, _validate_location fs
        { st with labelVisible := false, statusVisible := false }
        (if st.textboxText ≠ "" then osp_normpath st.textboxText else "")
        none none = .ok (r, stm, fs') ∧
      ((r.nonempty = true ∧ b = false ∧
         st' = { stm with
           labelText := _compose_failed_validation_text r,
           labelVisible := true }) ∨
       (r.nonempty = false ∧ b = true ∧ st' = stm)) := by
  replace h :
      (match _validate_location fs
          { st with labelVisible := false, statusVisible := false }
          (if st.textboxText ≠ "" then osp_normpath st.textboxText else "")
          none none with
        | Except.error e => Except.error e
        | Except.ok (reasons, st2, fs1) =>
          if reasons.nonempty then
            Except.ok (false,
              { st2 with
                labelText := _compose_failed_validation_text reasons,
                labelVisible := true }, fs1)
          else Except.ok (true, st2, fs1)) = Except.ok (b, st', fs') := h
  cases hv : _validate_location fs
      { st with labelVisible := false, statusVisible := false }
      (if st.textboxText ≠ "" then osp_normpath st.textboxText else "")
      none none with
  | error e =>
    rw [hv] at h
    exact Except.noConfusion h
  | ok p =>
    obtain ⟨r, stm, fs1⟩ := p
    rw [hv] at h
    cases hne : r.nonempty with
    | true =>
      simp only [hne, if_true] at h
      cases h
      exact ⟨r, _, rfl, Or.inl ⟨hne, rfl, rfl⟩⟩
    | false =>
      simp only [hne, Bool.false_eq_true, if_false] at h
      cases h
      exact ⟨r, _, rfl, Or.inr ⟨hne, rfl, rfl⟩⟩

end SpyderConfigDialog

namespace SpyderConfigDialog

/-- C2: With fresh (`None`) reasons, `_validate_location` sets each flag
exactly under these conditions: `missing_info` iff the location string is
empty; `no_location` iff it is non-empty and not an existing directory;
`location_not_writable` iff it is an existing directory that fails the
write probe; `location_exists` iff all prior checks pass, a name is given,
and joining location with name yields an existing directory;
`spyder_project_exists` iff all prior checks pass, no name is given, and
`.spyproject` exists under the location. -/
theorem validate_location_flag_rules
    (fs : FS) (st : PageState) (location : String) (name : Option String)
    (r : ValidationReasons) (st' : PageState) (fs' : FS)
    (h : _validate_location fs st location none name = .ok (r, st', fs')) :
    (r.missing_info = true ↔ location = "") ∧
    (r.no_location = true ↔ location ≠ "" ∧ osp_isdir fs location = false) ∧
    (r.location_not_writable = true ↔ location ≠ "" ∧
      osp_isdir fs location = true ∧
      ∃ fsw, is_writable fs location = .ok (false, fsw)) ∧
    (r.location_exists = true ↔ location ≠ "" ∧
      osp_isdir fs location = true ∧
      (∃ fsw, is_writable fs location = .ok (true, fsw)) ∧
      ∃ n, name = some n ∧ osp_isdir fs (osp_join location n) = true) ∧
    (r.spyder_project_exists = true ↔ location ≠ "" ∧
      osp_isdir fs location = true ∧
      (∃ fsw, is_writable fs location = .ok (true, fsw)) ∧
      name = none ∧ osp_isdir fs (osp_join location ".spyproject") = true) := by
  rcases validate_location_spec fs st location name r st' fs' h with
    ⟨rfl, rfl, rfl, rfl⟩ | ⟨hne, hdir, rfl, rfl, rfl⟩ |
    ⟨hne, hdir, hw, rfl, rfl⟩ | ⟨hne, hdir, hw, ⟨n, rfl, hjoin⟩, rfl, rfl⟩ |
    ⟨hne, hdir, hw, rfl, hjoin, rfl, rfl⟩ |
    ⟨hne, hdir, hw, hmiss, rfl, rfl⟩
  · simp
  · simp [hne, hdir]
  · simp [hne, hdir, hw]
  · simp [hne, hdir, hw, hjoin]
  · simp [hne, hdir, hw, hjoin]
  · rcases hmiss with ⟨n, rfl, hjoin⟩ | ⟨rfl, hjoin⟩ <;>
      simp [hne, hdir, hw, hjoin]

/-- C2 witness: concrete evaluation of the flag rules on an empty
filesystem with the non-existing location `x`. -/
theorem validate_location_flag_rules_witness :
    ({ no_location := true } : ValidationReasons).no_location = true ↔
      ("x" ≠ "" ∧ osp_isdir ⟨[], [], []⟩ "x" = false) :=
  (validate_location_flag_rules ⟨[], [], []⟩ ⟨"", false, "", false, ""⟩ "x"
    none { no_location := true } ⟨"", true, tip_no_location, false, ""⟩
    ⟨[], [], []⟩ (by rfl)).2.1

/-- C3: In any single call of `_validate_location` with fresh reasons, at
most one flag is set, and a later check passes only when every earlier
check succeeded: `no_location` requires a non-empty location,
`location_not_writable` an existing directory, and the two already-exists
flags additionally a successful write probe. -/
theorem validate_location_sequential_exclusive
    (fs : FS) (st : PageState) (location : String) (name : Option String)
    (r : ValidationReasons) (st' : PageState) (fs' : FS)
    (h : _validate_location fs st location none name = .ok (r, st', fs')) :
    r.n_reasons ≤ 1 ∧
    (r.no_location = true → location ≠ "") ∧
    (r.location_not_writable = true → location ≠ "" ∧
      osp_isdir fs location = true) ∧
    (r.location_exists = true → location ≠ "" ∧
      osp_isdir fs location = true ∧
      ∃ fsw, is_writable fs location = .ok (true, fsw)) ∧
    (r.spyder_project_exists = true → location ≠ "" ∧
      osp_isdir fs location = true ∧
      ∃ fsw, is_writable fs location = .ok (true, fsw)) := by
  rcases validate_location_spec fs st location name r st' fs' h with
    ⟨rfl, rfl, rfl, rfl⟩ | ⟨hne, hdir, rfl, rfl, rfl⟩ |
    ⟨hne, hdir, hw, rfl, rfl⟩ | ⟨hne, hdir, hw, ⟨n, rfl, hjoin⟩, rfl, rfl⟩ |
    ⟨hne, hdir, hw, rfl, hjoin, rfl, rfl⟩ |
    ⟨hne, hdir, hw, hmiss, rfl, rfl⟩
  · exact ⟨by decide, by simp, by simp, by simp, by simp⟩
  · exact ⟨by decide, fun _ => hne, by simp, by simp, by simp⟩
  · exact ⟨by decide, by simp, fun _ => ⟨hne, hdir⟩, by simp, by simp⟩
  · exact ⟨by decide, by simp, by simp, fun _ => ⟨hne, hdir, _, hw⟩, by simp⟩
  · exact ⟨by decide, by simp, by simp, by simp, fun _ => ⟨hne, hdir, _, hw⟩⟩
  · exact ⟨by decide, by simp, by simp, by simp, by simp⟩

/-- C3 witness: at most one flag is set on a concrete failing run. -/
theorem validate_location_sequential_exclusive_witness :
    ({ no_location := true } : ValidationReasons).n_reasons ≤ 1 :=
  (validate_location_sequential_exclusive ⟨[], [], []⟩
    ⟨"", false, "", false, ""⟩ "x" none { no_location := true }
    ⟨"", true, tip_no_location, false, ""⟩ ⟨[], [], []⟩ (by rfl)).1

end SpyderConfigDialog

namespace SpyderConfigDialog

/-- C1: `validate_page` returns `true` iff validating the normalized
location (with fresh reasons and no name) records no validation reason;
whenever any reason is recorded it returns `false`. -/
theorem validate_page_gates_on_reasons (fs : FS) (st : PageState) (b : Bool)
    (st' : PageState) (fs' : FS)
    (h : validate_page fs st = .ok (b, st', fs')) :
    ∃ r stm fs1, _validate_location fs
        { st with labelVisible := false, statusVisible := false }
        (if st.textboxText ≠ "" then osp_normpath st.textboxText else "")
        none none = .ok (r, stm, fs1) ∧
      (b = true ↔ r.nonempty = false) := by
  obtain ⟨r, stm, hv, hcase⟩ := validate_page_spec fs st b st' fs' h
  refine ⟨r, stm, fs', hv, ?_⟩
  rcases hcase with ⟨hne, rfl, _⟩ | ⟨hne, rfl, _⟩ <;> simp [hne]

/-- C1 witness: a concrete passing run of the page. -/
theorem validate_page_gates_on_reasons_witness :
    ∃ r stm fs1, _validate_location ⟨["d"], [], ["d"]⟩
        ⟨"d", false, "", false, ""⟩ (osp_normpath "d") none none =
        .ok (r, stm, fs1) ∧
      (true = true ↔ r.nonempty = false) :=
  validate_page_gates_on_reasons ⟨["d"], [], ["d"]⟩ ⟨"d", false, "", false, ""⟩
    true ⟨"d", false, "", false, ""⟩ ⟨["d"], [], ["d"]⟩ (by rfl)

/-- C9: When the location textbox is empty, `validate_page` validates the
empty string rather than `normpath("") = "."`: it always fails with the
missing-fields message and the status icon tooltip `This is empty`, for
every filesystem (even one where `.` exists) — although `project_location`
itself normalizes the raw text and yields `.`. -/
theorem validate_page_empty_input (fs : FS) (st : PageState)
    (h : st.textboxText = "") :
    validate_page fs st =
      .ok (false,
        { st with
          statusVisible := true, statusTooltip := tip_empty,
          labelVisible := true, labelText := msg_missing_info }, fs) ∧
    project_location st = "." := by
  constructor
  · simp only [validate_page, h]
    rfl
  · simp only [project_location, h]
    rfl

/-- C9 witness: empty textbox over a filesystem where `.` is an existing
writable directory — the page still fails with the missing-fields
message, while `project_location` is `.`. -/
theorem validate_page_empty_input_witness :
    validate_page ⟨["."], [], ["."]⟩ ⟨"", true, "x", false, "y"⟩ =
      .ok (false, ⟨"", true, tip_empty, true, msg_missing_info⟩,
        ⟨["."], [], ["."]⟩) ∧
    project_location ⟨"", true, "x", false, "y"⟩ = "." :=
  validate_page_empty_input ⟨["."], [], ["."]⟩ ⟨"", true, "x", false, "y"⟩
    (by rfl)

/-- C7: The display effects of `validate_page`: the textbox is untouched;
afterwards the validation label is visible iff validation failed, holding
the composed failure text of the recorded reasons; on a pass the state is
exactly the input state with label and status icon hidden. -/
theorem validate_page_display_effects (fs : FS) (st : PageState) (b : Bool)
    (st' : PageState) (fs' : FS)
    (h : validate_page fs st = .ok (b, st', fs')) :
    st'.textboxText = st.textboxText ∧
    (st'.labelVisible = true ↔ b = false) ∧
    (b = true →
      st' = { st with labelVisible := false, statusVisible := false }) ∧
    (b = false → ∃ r stm fs1, _validate_location fs
        { st with labelVisible := false, statusVisible := false }
        (if st.textboxText ≠ "" then osp_normpath st.textboxText else "")
        none none = .ok (r, stm, fs1) ∧
      r.nonempty = true ∧
      st'.labelText = _compose_failed_validation_text r) := by
  obtain ⟨r, stm, hv, hcase⟩ := validate_page_spec fs st b st' fs' h
  have hspec := validate_location_spec _ _ _ _ _ _ _ hv
  have hstm : stm.textboxText = st.textboxText ∧ stm.labelVisible = false := by
    rcases hspec with ⟨_, _, _, rfl⟩ | ⟨_, _, _, _, rfl⟩ | ⟨_, _, _, _, rfl⟩ |
      ⟨_, _, _, _, _, rfl⟩ | ⟨_, _, _, _, _, _, rfl⟩ | ⟨_, _, _, _, _, rfl⟩
    all_goals exact ⟨rfl, rfl⟩
  rcases hcase with ⟨hne, rfl, rfl⟩ | ⟨hne, rfl, rfl⟩
  · exact ⟨hstm.1, by simp, by simp, fun _ => ⟨r, stm, fs', hv, hne, rfl⟩⟩
  · refine ⟨hstm.1, by simp [hstm.2], fun _ => ?_, by simp⟩
    rcases hspec with ⟨_, rfl, _, _⟩ | ⟨_, _, rfl, _, _⟩ | ⟨_, _, _, rfl, _⟩ |
      ⟨_, _, _, _, rfl, _⟩ | ⟨_, _, _, _, _, rfl, _⟩ | ⟨_, _, _, _, rfl, rfl⟩
    · simp [ValidationReasons.nonempty] at hne
    · simp [ValidationReasons.nonempty] at hne
    · simp [ValidationReasons.nonempty] at hne
    · simp [ValidationReasons.nonempty] at hne
    · simp [ValidationReasons.nonempty] at hne
    · rfl

/-- C7 witness: the label is visible after a concrete failing run. -/
theorem validate_page_display_effects_witness :
    (⟨"", true, tip_empty, true, msg_missing_info⟩ : PageState).labelVisible =
        true ↔ false = false :=
  (validate_page_display_effects ⟨[], [], []⟩ ⟨"", false, "", false, ""⟩ false
    ⟨"", true, tip_empty, true, msg_missing_info⟩ ⟨[], [], []⟩ (by rfl)).2.1

end SpyderConfigDialog

namespace SpyderConfigDialog

/-- C4: The probe joins the sentinel name onto the path and attempts to
create then delete that file: it returns `false` exactly when the attempt
raises `FileNotFoundError` or `PermissionError`, and `true` exactly when
both the creation and the deletion succeed. -/
theorem is_writable_probe_spec (fs : FS) (path : String) :
    ((∃ fs2, is_writable fs path = .ok (true, fs2)) ↔
      (∃ fs1 fs2, fs.openW (osp_join path writeTestName) = .ok fs1 ∧
        fs1.osRemove (osp_join path writeTestName) = .ok fs2)) ∧
    ((∃ fsr, is_writable fs path = .ok (false, fsr)) ↔
      ((∃ e, fs.openW (osp_join path writeTestName) = .error e ∧
          (e = .fileNotFound ∨ e = .permission)) ∨
        (∃ fs1 e, fs.openW (osp_join path writeTestName) = .ok fs1 ∧
          fs1.osRemove (osp_join path writeTestName) = .error e ∧
          (e = .fileNotFound ∨ e = .permission)))) := by
  simp only [is_writable]
  cases hopen : FS.openW fs (osp_join path writeTestName) with
  | error e => cases e <;> simp
  | ok fs1 =>
    cases hrem : FS.osRemove fs1 (osp_join path writeTestName) with
    | error e => cases e <;> simp [hrem]
    | ok fs2 => simp [hrem]

/-- C6 counterexample: with both `location_exists` and `no_location` set,
the composed text does not contain the `no_location` message — the claim
that the message of each `True` flag appears fails on this record. -/
theorem compose_drops_lower_priority_message :
    ({ location_exists := true, no_location := true } :
        ValidationReasons).no_location = true ∧
    ¬ occursIn msg_no_location
      (_compose_failed_validation_text
        { location_exists := true, no_location := true }) := by
  exact ⟨rfl, by decide⟩

/-- C6 (amended): the composed text is the message of the
highest-priority true location flag (priority `location_exists`,
`spyder_project_exists`, `location_not_writable`, `no_location`) followed
by the `missing_info` message when that flag is set; when more than one
flag is true, each contributed message is prefixed by `- ` and the
location message additionally carries the `<br>` separator. -/
theorem compose_text_structure (r : ValidationReasons) :
    _compose_failed_validation_text r =
      (if r.location_exists then
        (if r.n_reasons > 1 then "- " else "") ++ msg_location_exists ++
          (if r.n_reasons > 1 then "<br>" else "")
      else if r.spyder_project_exists then
        (if r.n_reasons > 1 then "- " else "") ++ msg_spyder_project_exists ++
          (if r.n_reasons > 1 then "<br>" else "")
      else if r.location_not_writable then
        (if r.n_reasons > 1 then "- " else "") ++ msg_not_writable ++
          (if r.n_reasons > 1 then "<br>" else "")
      else if r.no_location then
        (if r.n_reasons > 1 then "- " else "") ++ msg_no_location ++
          (if r.n_reasons > 1 then "<br>" else "")
      else "") ++
      (if r.missing_info then
        (if r.n_reasons > 1 then "- " else "") ++ msg_missing_info
      else "") := by
  obtain ⟨a, b, c, d, e⟩ := r
  cases a <;> cases b <;> cases c <;> cases d <;> cases e <;> rfl

/-- C8: Each of the four location messages occurs in the composed text iff
its flag is set and no higher-priority location flag is set (so at most
one of them occurs), while the missing-fields message occurs iff
`missing_info` is set, independently of the other four flags. -/
theorem compose_message_occurrence (r : ValidationReasons) :
    (occursIn msg_location_exists (_compose_failed_validation_text r) ↔
      r.location_exists = true) ∧
    (occursIn msg_spyder_project_exists (_compose_failed_validation_text r) ↔
      r.spyder_project_exists = true ∧ r.location_exists = false) ∧
    (occursIn msg_not_writable (_compose_failed_validation_text r) ↔
      r.location_not_writable = true ∧ r.location_exists = false ∧
        r.spyder_project_exists = false) ∧
    (occursIn msg_no_location (_compose_failed_validation_text r) ↔
      r.no_location = true ∧ r.location_exists = false ∧
        r.spyder_project_exists = false ∧
        r.location_not_writable = false) ∧
    (occursIn msg_missing_info (_compose_failed_validation_text r) ↔
      r.missing_info = true) := by
  obtain ⟨a, b, c, d, e⟩ := r
  cases a <;> cases b <;> cases c <;> cases d <;> cases e <;> decide

end SpyderConfigDialog

namespace SpyderConfigDialog

theorem validate_location_name_none_no_exists
    (fs : FS) (st : PageState) (location : String)
    (r : ValidationReasons) (st' : PageState) (fs' : FS)
    (h : _validate_location fs st location none none = .ok (r, st', fs')) :
    r.location_exists = false := by
  rcases validate_location_spec fs st location none r st' fs' h with
    ⟨_, rfl, _, _⟩ | ⟨_, _, rfl, _, _⟩ | ⟨_, _, _, rfl, _⟩ |
    ⟨_, _, _, ⟨n, hn, _⟩, rfl, _⟩ | ⟨_, _, _, _, _, rfl, _⟩ |
    ⟨_, _, _, _, rfl, _⟩
  · rfl
  · rfl
  · rfl
  · exact Option.noConfusion hn
  · rfl
  · rfl

theorem compose_without_location_exists (r : ValidationReasons)
    (h : r.location_exists = false) :
    ¬ occursIn msg_location_exists (_compose_failed_validation_text r) := by
  obtain ⟨a, b, c, d, e⟩ := r
  revert h
  cases a <;> cases b <;> cases c <;> cases d <;> cases e <;> decide

/-- C5 counterexample: no textbox/filesystem state makes the page fail
with the already-exists reason displayed: `validate_page` always calls
`_validate_location` with `name = None`, so `location_exists` is never
recorded and its message never reaches the validation label. -/
theorem location_exists_unreachable_via_page :
    ¬ ∃ (fs : FS) (st : PageState) (st' : PageState) (fs' : FS),
      validate_page fs st = .ok (false, st', fs') ∧
      occursIn msg_location_exists st'.labelText := by
  rintro ⟨fs, st, st', fs', h, hocc⟩
  obtain ⟨r, stm, hv, hcase⟩ := validate_page_spec fs st false st' fs' h
  rcases hcase with ⟨hne, _, rfl⟩ | ⟨_, hb, _⟩
  · exact compose_without_location_exists r
      (validate_location_name_none_no_exists _ _ _ _ _ _ hv) hocc
  · exact Bool.noConfusion hb

/-- C5 (amended): of the five failure reasons, the four that
`validate_page` can actually record — empty input, nonexistent directory,
unwritable directory, already-a-project — are each reachable: for each
there is a textbox/filesystem state on which the page fails with that
reason recorded and its message displayed.  (The already-exists reason is
unreachable through this page; see the counterexample.) -/
theorem four_reasons_reachable_via_page :
    (∃ fs st st' fs' r stm fs1,
      validate_page fs st = .ok (false, st', fs') ∧
      _validate_location fs
        { st with labelVisible := false, statusVisible := false }
        (if st.textboxText ≠ "" then osp_normpath st.textboxText else "")
        none none = .ok (r, stm, fs1) ∧
      r.missing_info = true ∧ occursIn msg_missing_info st'.labelText) ∧
    (∃ fs st st' fs' r stm fs1,
      validate_page fs st = .ok (false, st', fs') ∧
      _validate_location fs
        { st with labelVisible := false, statusVisible := false }
        (if st.textboxText ≠ "" then osp_normpath st.textboxText else "")
        none none = .ok (r, stm, fs1) ∧
      r.no_location = true ∧ occursIn msg_no_location st'.labelText) ∧
    (∃ fs st st' fs' r stm fs1,
      validate_page fs st = .ok (false, st', fs') ∧
      _validate_location fs
        { st with labelVisible := false, statusVisible := false }
        (if st.textboxText ≠ "" then osp_normpath st.textboxText else "")
        none none = .ok (r, stm, fs1) ∧
      r.location_not_writable = true ∧
      occursIn msg_not_writable st'.labelText) ∧
    (∃ fs st st' fs' r stm fs1,
      validate_page fs st = .ok (false, st', fs') ∧
      _validate_location fs
        { st with labelVisible := false, statusVisible := false }
        (if st.textboxText ≠ "" then osp_normpath st.textboxText else "")
        none none = .ok (r, stm, fs1) ∧
      r.spyder_project_exists = true ∧
      occursIn msg_spyder_project_exists st'.labelText) := by
  refine ⟨⟨⟨[], [], []⟩, ⟨"", false, "", false, ""⟩,
      ⟨"", true, tip_empty, true, msg_missing_info⟩, ⟨[], [], []⟩,
      { missing_info := true }, ⟨"", true, tip_empty, false, ""⟩,
      ⟨[], [], []⟩, by rfl, by rfl, rfl, ?_⟩,
    ⟨⟨[], [], []⟩, ⟨"nope", false, "", false, ""⟩,
      ⟨"nope", true, tip_no_location, true, msg_no_location⟩, ⟨[], [], []⟩,
      { no_location := true }, ⟨"nope", true, tip_no_location, false, ""⟩,
      ⟨[], [], []⟩, by rfl, by rfl, rfl, ?_⟩,
    ⟨⟨["d"], [], []⟩, ⟨"d", false, "", false, ""⟩,
      ⟨"d", true, tip_not_writable, true, msg_not_writable⟩, ⟨["d"], [], []⟩,
      { location_not_writable := true },
      ⟨"d", true, tip_not_writable, false, ""⟩,
      ⟨["d"], [], []⟩, by rfl, by rfl, rfl, ?_⟩,
    ⟨⟨["d", "d/.spyproject"], [], ["d"]⟩, ⟨"d", false, "", false, ""⟩,
      ⟨"d", true, tip_spyder_project, true, msg_spyder_project_exists⟩,
      ⟨["d", "d/.spyproject"], [], ["d"]⟩,
      { spyder_project_exists := true },
      ⟨"d", true, tip_spyder_project, false, ""⟩,
      ⟨["d", "d/.spyproject"], [], ["d"]⟩, by rfl, by rfl, rfl, ?_⟩⟩
  · exact List.infix_refl _
  · exact List.infix_refl _
  · exact List.infix_refl _
  · exact List.infix_refl _

/-- C10 counterexample: when the sentinel file is already present in the
probed directory, `is_writable` returns `True` yet removes it, so the
directory contents after the call differ from before. -/
theorem is_writable_deletes_preexisting_sentinel :
    is_writable ⟨["d"], ["d/__spyder_write_test__.txt"], ["d"]⟩ "d" =
      .ok (true, ⟨["d"], [], ["d"]⟩) ∧
    (⟨["d"], [], ["d"]⟩ : FS).files ≠
      (⟨["d"], ["d/__spyder_write_test__.txt"], ["d"]⟩ : FS).files := by
  exact ⟨by rfl, by decide⟩

/-- C10 (amended): whenever `is_writable` returns `True` and the sentinel
file was not already present, the sentinel it created has been removed
before returning: the filesystem after the call is identical to the one
before. -/
theorem is_writable_true_frame (fs : FS) (path : String) (fs' : FS)
    (hpre : fs.files.contains (osp_join path writeTestName) = false)
    (h : is_writable fs path = .ok (true, fs')) :
    fs' = fs := by
  simp only [is_writable] at h
  cases hopen : FS.openW fs (osp_join path writeTestName) with
  | error e =>
    rw [hopen] at h
    cases e <;> simp_all
  | ok fs1 =>
    rw [hopen] at h
    unfold FS.openW at hopen
    split at hopen
    · exact Except.noConfusion hopen
    · split at hopen
      · exact Except.noConfusion hopen
      · split at hopen
        · exact Except.noConfusion hopen
        · split at hopen
          · simp_all
          · cases hopen
            have hrem : FS.osRemove
                { fs with
                  files := osp_join path writeTestName :: fs.files }
                (osp_join path writeTestName) =
                .ok { fs with files := fs.files } := by
              unfold FS.osRemove
              simp_all [List.erase_cons_head]
            simp only [hrem] at h
            cases h
            rfl

/-- C10 witness: concrete run of the frame property on a writable
directory without the sentinel file. -/
theorem is_writable_true_frame_witness :
    (⟨["d"], [], ["d"]⟩ : FS).files.contains (osp_join "d" writeTestName) =
        false ∧
    (⟨["d"], [], ["d"]⟩ : FS) = ⟨["d"], [], ["d"]⟩ :=
  ⟨by rfl, is_writable_true_frame ⟨["d"], [], ["d"]⟩ "d" ⟨["d"], [], ["d"]⟩
    (by rfl) (by rfl)⟩

end SpyderConfigDialog
